import Mathlib

/-
Verification development for the AI-Passport-Photo-Maker repository.

The embedded code lives in:
  * src/utils/canvasUtils.ts   (generateLUT, applyCurves, calculateHistogram,
                                getCroppedImg, generatePassportSheet)
  * src/unnamed/part_000       (alternate getCroppedImg / generatePassportSheet)
  * src/components/Cropper.tsx (handleCrop)
  * src/unnamed/part_003       (alternate handleCrop)

Modelling conventions:
  * JavaScript numbers are modelled as exact rationals (ℚ); integer-valued
    quantities (curve-point coordinates, 8-bit channel samples) as ℤ / ℕ.
    Division by zero (which in JavaScript yields Infinity) is outside the
    scope of every theorem below: theorems about values computed through a
    division carry the hypotheses that make the divisor nonzero, or avoid
    the zero divisor in their concrete inputs.
  * A value stored into a Uint8Array is converted by truncation toward zero
    followed by reduction modulo 256 (ECMAScript ToUint8); for the
    already-clamped nonnegative values of generateLUT this is the floor,
    for the unclamped integer branch it is Int.emod _ 256.
  * The canvas pixel rasters are modelled as the flat RGBA sample list /
    the pixel list actually traversed by the loops; image decoding and
    canvas acquisition are outside the embedded core.
-/

/-- A curve control point, `{x, y}` from src/types (part_001): integer
intensity coordinates. -/
structure Point where
  x : ℤ
  y : ℤ
deriving DecidableEq, Repr

/-- The comparison used by `[...points].sort((a, b) => a.x - b.x)`:
ordering by the x coordinate. -/
def ptLE (p q : Point) : Prop := p.x ≤ q.x

instance : DecidableRel ptLE := fun p q => inferInstanceAs (Decidable (p.x ≤ q.x))

instance : IsTotal Point ptLE := ⟨fun p q => le_total p.x q.x⟩

instance : IsTrans Point ptLE := ⟨fun _ _ _ h h2 => le_trans h h2⟩

/-- Source: `[...points].sort((a, b) => a.x - b.x)` — a stable sort by x
(ECMAScript Array.prototype.sort is stable); insertion sort with the
non-strict comparison is stable and produces the same list. -/
def sortByX (points : List Point) : List Point := List.insertionSort ptLE points

/-- The bracket scan of generateLUT (canvasUtils.ts lines 140-146):
`for (let j = 0; j < sorted.length - 1; j++) if (i >= sorted[j].x && i <= sorted[j+1].x) { p1 = sorted[j]; p2 = sorted[j+1]; break; }`.
Returns the first adjacent pair bracketing i, none when the scan finds none. -/
def findBracket (i : ℤ) : List Point → Option (Point × Point)
  | p :: q :: rest => if p.x ≤ i ∧ i ≤ q.x then some (p, q) else findBracket i (q :: rest)
  | _ => none

/-- Source: `Math.max(0, Math.min(255, v))` followed by the Uint8Array store;
for the clamped value in [0, 255] the ToUint8 truncation is the floor. -/
def clampFloor (v : ℚ) : ℤ := ⌊max 0 (min 255 v)⌋

/-- The per-entry body of generateLUT (canvasUtils.ts lines 148-153):
`if (p1.x === p2.x) { lut[i] = p1.y; } else { const t = (i - p1.x) / (p2.x - p1.x); lut[i] = Math.max(0, Math.min(255, p1.y + t * (p2.y - p1.y))); }`.
In the degenerate branch the raw integer y is stored, so the Uint8Array
conversion reduces it modulo 256 (no clamping happens there). -/
def interpEntry (p1 p2 : Point) (i : ℤ) : ℤ :=
  if p1.x = p2.x then p1.y.emod 256
  else clampFloor ((p1.y : ℚ) + ((i : ℚ) - (p1.x : ℚ)) / ((p2.x : ℚ) - (p1.x : ℚ)) * ((p2.y : ℚ) - (p1.y : ℚ)))

/-- One entry of the table built by generateLUT (canvasUtils.ts lines 136-155):
`let p1 = sorted[0]; let p2 = sorted[sorted.length - 1];` then the bracket
scan, then the interpolation body. The empty-points case (a JavaScript
TypeError on `sorted[0].x`; a caller contract violation per the spec) is
given the junk value 0 and is excluded from every claim. -/
def lutEntry (points : List Point) (i : ℕ) : ℤ :=
  match sortByX points with
  | [] => 0
  | p :: rest =>
    let pq := (findBracket (i : ℤ) (p :: rest)).getD (p, (p :: rest).getLast (List.cons_ne_nil p rest))
    interpEntry pq.1 pq.2 (i : ℤ)

/-- generateLUT (canvasUtils.ts lines 133-157): the 256-entry table,
entry i being the stored Uint8Array value as an integer. -/
def generateLUT (points : List Point) : List ℤ :=
  (List.range 256).map (lutEntry points)

/-- generateLUT viewed with natural-number entries (every stored value is
nonnegative, see the range theorems below); this is the form indexed by
applyCurves. -/
def generateLUTN (points : List Point) : List ℕ :=
  (List.range 256).map (fun i => (lutEntry points i).toNat)

/-- CurveSettings from src/types (part_001): four independent control-point
sets (master, red, green, blue). -/
structure CurveSettings where
  all : List Point
  red : List Point
  green : List Point
  blue : List Point

/-- The pixel loop of applyCurves (canvasUtils.ts lines 184-192):
`for (let i = 0; i < data.length; i += 4) { let r = lutR[data[i]]; let g = lutG[data[i+1]]; let b = lutB[data[i+2]]; data[i] = lutAll[r]; data[i+1] = lutAll[g]; data[i+2] = lutAll[b]; }`
over the flat RGBA sample list; data[i+3] (alpha) is never written.
A trailing fragment shorter than 4 samples is left unchanged (an ImageData
buffer always has length a multiple of 4). -/
def mapPixels (lutAll lutR lutG lutB : List ℕ) : List ℕ → List ℕ
  | r :: g :: b :: a :: rest =>
      lutAll.getD (lutR.getD r 0) 0 :: lutAll.getD (lutG.getD g 0) 0 ::
        lutAll.getD (lutB.getD b 0) 0 :: a :: mapPixels lutAll lutR lutG lutB rest
  | l => l

/-- applyCurves (canvasUtils.ts lines 162-198) restricted to its pixel
mathematics: build the four LUTs once, then run the pixel loop. -/
def applyCurvesData (s : CurveSettings) (data : List ℕ) : List ℕ :=
  mapPixels (generateLUTN s.all) (generateLUTN s.red) (generateLUTN s.green) (generateLUTN s.blue) data

/-- One RGBA pixel of the sampled raster read by calculateHistogram. -/
structure Px where
  r : ℕ
  g : ℕ
  b : ℕ
  a : ℕ
deriving DecidableEq, Repr

/-- Valid 8-bit channel samples, as delivered by ImageData. -/
def validPx (p : Px) : Prop := p.r ≤ 255 ∧ p.g ≤ 255 ∧ p.b ≤ 255

instance : DecidablePred validPx := fun p =>
  inferInstanceAs (Decidable (p.r ≤ 255 ∧ p.g ≤ 255 ∧ p.b ≤ 255))

/-- Source: `Math.round(0.299 * data[i] + 0.587 * data[i+1] + 0.114 * data[i+2])`
(canvasUtils.ts line 64): with exact arithmetic the luma is
(299 r + 587 g + 114 b) / 1000 and Math.round (round half toward positive
infinity) of a nonnegative value x is ⌊x + 1/2⌋, i.e. the natural-number
division below. -/
def luma (p : Px) : ℕ := (299 * p.r + 587 * p.g + 114 * p.b + 500) / 1000

/-- The bucket array built by the loop
`for (let i = 0; i < data.length; i += 4) { histogram[brightness]++ }`
(canvasUtils.ts lines 60-66): bucket l holds the number of sampled pixels
whose rounded luma is l. -/
def histCounts (pixels : List Px) : List ℕ :=
  (List.range 256).map (fun l => (pixels.filter (fun p => luma p == l)).length)

/-- Source: `const max = Math.max(...histogram)` (canvasUtils.ts line 68). -/
def histMax (pixels : List Px) : ℕ := (histCounts pixels).foldr max 0

/-- Source: `histogram.map(v => v / max)` (canvasUtils.ts line 69): the normalized
histogram returned to the caller. -/
def calculateHistogram (pixels : List Px) : List ℚ :=
  (histCounts pixels).map (fun v : ℕ => (v : ℚ) / (histMax pixels : ℚ))

/-- An axis-aligned rectangle (crop rectangles and sheet cells). -/
structure Rect where
  x : ℚ
  y : ℚ
  w : ℚ
  h : ℚ
deriving DecidableEq, Repr

/-- The inputs shared by the two handleCrop implementations
(Cropper.tsx lines 86-119, part_003 lines 47-103): natural image size,
zoom, pan position, container size and the on-screen crop-box size. -/
structure CropParams where
  naturalW : ℚ
  naturalH : ℚ
  zoom : ℚ
  posX : ℚ
  posY : ℚ
  containerW : ℚ
  containerH : ℚ
  cropBoxW : ℚ
  cropBoxH : ℚ

/-- Source: `const renderedWidth = img.naturalWidth * zoom`. -/
def renderedWidth (P : CropParams) : ℚ := P.naturalW * P.zoom

/-- Source: `const renderedHeight = img.naturalHeight * zoom`. -/
def renderedHeight (P : CropParams) : ℚ := P.naturalH * P.zoom

/-- Source: `const cropBoxLeft = (containerW - CROP_BOX_WIDTH) / 2`. -/
def cropBoxLeft (P : CropParams) : ℚ := (P.containerW - P.cropBoxW) / 2

/-- Source: `const cropBoxTop = (containerH - CROP_BOX_HEIGHT) / 2`. -/
def cropBoxTop (P : CropParams) : ℚ := (P.containerH - P.cropBoxH) / 2

/-- Source: `const imgLeftInContainer = (containerW - renderedWidth) / 2 + position.x`. -/
def imgLeftInContainer (P : CropParams) : ℚ := (P.containerW - renderedWidth P) / 2 + P.posX

/-- Source: `const imgTopInContainer = (containerH - renderedHeight) / 2 + position.y`. -/
def imgTopInContainer (P : CropParams) : ℚ := (P.containerH - renderedHeight P) / 2 + P.posY

/-- Source: `const offsetX = cropBoxLeft - imgLeftInContainer`. -/
def cropOffsetX (P : CropParams) : ℚ := cropBoxLeft P - imgLeftInContainer P

/-- Source: `const offsetY = cropBoxTop - imgTopInContainer`. -/
def cropOffsetY (P : CropParams) : ℚ := cropBoxTop P - imgTopInContainer P

/-- Source: `const scale = img.naturalWidth / renderedWidth`. -/
def cropScale (P : CropParams) : ℚ := P.naturalW / renderedWidth P

/-- handleCrop of src/components/Cropper.tsx (lines 86-119): the rectangle
handed to getCroppedImg is `{ x: offsetX * scale, y: offsetY * scale,
width: CROP_BOX_WIDTH * scale, height: CROP_BOX_HEIGHT * scale }` —
no clamping of any component. -/
def handleCropMain (P : CropParams) : Rect :=
  ⟨cropOffsetX P * cropScale P, cropOffsetY P * cropScale P,
    P.cropBoxW * cropScale P, P.cropBoxH * cropScale P⟩

/-- handleCrop of src/unnamed/part_003 (lines 47-103): the same arithmetic
followed by `cropX = Math.max(0, offsetX * scale)`,
`cropY = Math.max(0, offsetY * scale)`,
`cropW = Math.min(img.naturalWidth, CROP_BOX_WIDTH * scale)`,
`cropH = Math.min(img.naturalHeight, CROP_BOX_HEIGHT * scale)`
(the sizes are clamped to the full natural dimensions, not to the part of
the image remaining beyond the clamped origin). -/
def handleCropAlt (P : CropParams) : Rect :=
  ⟨max 0 (cropOffsetX P * cropScale P), max 0 (cropOffsetY P * cropScale P),
    min P.naturalW (P.cropBoxW * cropScale P), min P.naturalH (P.cropBoxH * cropScale P)⟩

/-- The error taxonomy of the spec (section 7); the source declares no such
condition, which the theorems below make precise. -/
inductive GeomError where
  | invalidGeometry
deriving DecidableEq

/-- The crop-resolution step of Cropper.tsx viewed as a fallible operation:
the source performs no geometry validation anywhere on this path, so the
computation is a single unconditional success. -/
def handleCropMainE (P : CropParams) : Except GeomError Rect := Except.ok (handleCropMain P)

/-- The crop-resolution step of part_003 viewed as a fallible operation:
again the source has no validation or failure branch. -/
def handleCropAltE (P : CropParams) : Except GeomError Rect := Except.ok (handleCropAlt P)

/-- Source: `CROP_BOX_HEIGHT = 420` and `CROP_BOX_WIDTH = CROP_BOX_HEIGHT * (35/45)`
in Cropper.tsx. -/
def cropBoxHeightMain : ℚ := 420

def cropBoxWidthMain : ℚ := cropBoxHeightMain * (35 / 45)

/-- Source: `CROP_BOX_HEIGHT = 360` and `CROP_BOX_WIDTH = CROP_BOX_HEIGHT * (35/45)`
in part_003. -/
def cropBoxHeightAlt : ℚ := 360

def cropBoxWidthAlt : ℚ := cropBoxHeightAlt * (35 / 45)

/-- The target-size computation of getCroppedImg, parametrized by the
maximum-height policy constant:
`if (targetHeight > MAX_HEIGHT) { const scale = MAX_HEIGHT / targetHeight; targetWidth = targetWidth * scale; targetHeight = MAX_HEIGHT; }`.
Only the height is capped; the width is merely rescaled by the same factor. -/
def croppedTargetSize (maxH cropW cropH : ℚ) : ℚ × ℚ :=
  if cropH > maxH then (cropW * (maxH / cropH), maxH) else (cropW, cropH)

/-- getCroppedImg of canvasUtils.ts (lines 80-128): `MAX_HEIGHT = 2048`. -/
def getCroppedImgTarget (cropW cropH : ℚ) : ℚ × ℚ := croppedTargetSize 2048 cropW cropH

/-- getCroppedImg of part_000 (lines 5-55): `MAX_HEIGHT = 1024`. -/
def getCroppedImgTargetAlt (cropW cropH : ℚ) : ℚ × ℚ := croppedTargetSize 1024 cropW cropH

/-- Source: `const DPI = 300` (generatePassportSheet). -/
def sheetDPI : ℚ := 300

/-- Source: `const SHEET_WIDTH = 6 * DPI` — 1800 px. -/
def SHEET_WIDTH : ℚ := 6 * sheetDPI

/-- Source: `const SHEET_HEIGHT = 4 * DPI` — 1200 px. -/
def SHEET_HEIGHT : ℚ := 4 * sheetDPI

/-- Source: `const PHOTO_WIDTH_PX = (35 / 25.4) * DPI`. -/
def PHOTO_WIDTH_PX : ℚ := (35 / 25.4) * sheetDPI

/-- Source: `const PHOTO_HEIGHT_PX = (45 / 25.4) * DPI`. -/
def PHOTO_HEIGHT_PX : ℚ := (45 / 25.4) * sheetDPI

/-- Source: `const GAP_PX = (3 / 25.4) * DPI`. -/
def GAP_PX : ℚ := (3 / 25.4) * sheetDPI

/-- Source: `TOTAL_CONTENT_WIDTH = (COLS * PHOTO_WIDTH_PX) + ((COLS - 1) * GAP_PX)`
with COLS = 4. -/
def TOTAL_CONTENT_WIDTH : ℚ := 4 * PHOTO_WIDTH_PX + (4 - 1) * GAP_PX

/-- Source: `TOTAL_CONTENT_HEIGHT = (ROWS * PHOTO_HEIGHT_PX) + ((ROWS - 1) * GAP_PX)`
with ROWS = 2. -/
def TOTAL_CONTENT_HEIGHT : ℚ := 2 * PHOTO_HEIGHT_PX + (2 - 1) * GAP_PX

/-- Source: `START_X = (SHEET_WIDTH - TOTAL_CONTENT_WIDTH) / 2`. -/
def START_X : ℚ := (SHEET_WIDTH - TOTAL_CONTENT_WIDTH) / 2

/-- Source: `START_Y = (SHEET_HEIGHT - TOTAL_CONTENT_HEIGHT) / 2`. -/
def START_Y : ℚ := (SHEET_HEIGHT - TOTAL_CONTENT_HEIGHT) / 2

/-- The cell drawn at grid position (row, col):
`x = START_X + col * (PHOTO_WIDTH_PX + GAP_PX); y = START_Y + row * (PHOTO_HEIGHT_PX + GAP_PX); ctx.drawImage(photo, x, y, PHOTO_WIDTH_PX, PHOTO_HEIGHT_PX)`. -/
def sheetCell (row col : ℕ) : Rect :=
  ⟨START_X + col * (PHOTO_WIDTH_PX + GAP_PX), START_Y + row * (PHOTO_HEIGHT_PX + GAP_PX),
    PHOTO_WIDTH_PX, PHOTO_HEIGHT_PX⟩

/-- The eight cells drawn by the double loop
`for (let row = 0; row < ROWS; row++) for (let col = 0; col < COLS; col++)`
of generatePassportSheet (canvasUtils.ts lines 203-251, part_000 lines
61-122; both draw the identical grid). -/
def sheetCells : List Rect :=
  (List.range 2).flatMap (fun row => (List.range 4).map (fun col => sheetCell row col))

/-- Containment of a cell in the 1800 x 1200 sheet canvas. -/
def inSheet (c : Rect) : Prop :=
  0 ≤ c.x ∧ c.x + c.w ≤ SHEET_WIDTH ∧ 0 ≤ c.y ∧ c.y + c.h ≤ SHEET_HEIGHT

/-- Non-overlap of two axis-aligned rectangles: separated along some axis. -/
def RectDisjoint (c d : Rect) : Prop :=
  c.x + c.w ≤ d.x ∨ d.x + d.w ≤ c.x ∨ c.y + c.h ≤ d.y ∨ d.y + d.h ≤ c.y

/-- The clamp-then-truncate of a stored LUT value lies in [0, 255]. -/
theorem clampFloor_range (v : ℚ) : 0 ≤ clampFloor v ∧ clampFloor v ≤ 255 := by
  unfold clampFloor
  constructor
  · exact Int.le_floor.mpr (by exact_mod_cast le_max_left 0 _)
  · have h1 : max (0:ℚ) (min 255 v) ≤ 255 := max_le (by norm_num) (min_le_left _ _)
    exact Int.floor_le_iff.mpr (lt_of_le_of_lt h1 (by norm_num))

/-- Every interpolation-body output lies in [0, 255]. -/
theorem interpEntry_range (p1 p2 : Point) (i : ℤ) :
    0 ≤ interpEntry p1 p2 i ∧ interpEntry p1 p2 i ≤ 255 := by
  unfold interpEntry
  split
  · constructor
    · exact Int.emod_nonneg _ (by norm_num)
    · exact Int.lt_add_one_iff.mp (Int.emod_lt_of_pos p1.y (show (0:ℤ) < 256 by norm_num))
  · exact clampFloor_range _

/-- Every entry produced by lutEntry lies in [0, 255]. -/
theorem lutEntry_range (points : List Point) (i : ℕ) :
    0 ≤ lutEntry points i ∧ lutEntry points i ≤ 255 := by
  unfold lutEntry
  cases h : sortByX points with
  | nil => norm_num
  | cons p rest => exact interpEntry_range _ _ _

theorem sortByX_sorted (points : List Point) : List.Sorted ptLE (sortByX points) :=
  List.sorted_insertionSort ptLE points

theorem findBracket_eq_none_of_lt (i : ℤ) (s : List Point) (h : ∀ p ∈ s, i < p.x) :
    findBracket i s = none := by
  induction s with
  | nil => rfl
  | cons p rest ih =>
    cases rest with
    | nil => rfl
    | cons q rest2 =>
      unfold findBracket
      rw [if_neg]
      · exact ih (fun r hr => h r (List.mem_cons_of_mem p hr))
      · intro hc
        exact absurd hc.1 (not_le.mpr (h p (List.mem_cons_self p _)))

theorem findBracket_eq_none_of_gt (i : ℤ) (s : List Point) (h : ∀ p ∈ s, p.x < i) :
    findBracket i s = none := by
  induction s with
  | nil => rfl
  | cons p rest ih =>
    cases rest with
    | nil => rfl
    | cons q rest2 =>
      unfold findBracket
      rw [if_neg]
      · exact ih (fun r hr => h r (List.mem_cons_of_mem p hr))
      · intro hc
        exact absurd hc.2 (not_le.mpr (h q (List.mem_cons_of_mem p (List.mem_cons_self q _))))

theorem le_getLast_of_sorted (s : List Point) (hs : List.Sorted ptLE s) (hne : s ≠ []) :
    ∀ q ∈ s, q.x ≤ (s.getLast hne).x := by
  induction s with
  | nil => exact absurd rfl hne
  | cons p rest ih =>
    cases rest with
    | nil =>
      intro q hq
      rcases List.mem_cons.mp hq with rfl | hq2
      · exact le_refl _
      · cases hq2
    | cons b t =>
      intro q hq
      have hlast : (p :: b :: t).getLast hne = (b :: t).getLast (List.cons_ne_nil b t) :=
        List.getLast_cons (List.cons_ne_nil b t)
      rw [hlast]
      rcases List.mem_cons.mp hq with rfl | hq2
      · exact List.rel_of_sorted_cons hs _ (List.getLast_mem (List.cons_ne_nil b t))
      · exact ih hs.of_cons (List.cons_ne_nil b t) q hq2

/-- C3 (amended): for a non-empty point set, an input intensity strictly
before the smallest sorted x or strictly after the largest sorted x is NOT
clamped to the endpoint y value; the scan finds no bracketing pair, the default
pair (first sorted point, last sorted point) is kept, and the entry is the
linear extrapolation through those two points, clamped into [0, 255]
(first point y value modulo 256 when the two default points share one x). -/
theorem c3_amended (points : List Point) (p : Point) (rest : List Point)
    (hs : sortByX points = p :: rest) (i : ℕ)
    (hout : (i : ℤ) < p.x ∨ ((p :: rest).getLast (List.cons_ne_nil p rest)).x < (i : ℤ)) :
    lutEntry points i = interpEntry p ((p :: rest).getLast (List.cons_ne_nil p rest)) (i : ℤ) := by
  have hsorted : List.Sorted ptLE (p :: rest) := hs ▸ sortByX_sorted points
  have hnone : findBracket (i : ℤ) (p :: rest) = none := by
    rcases hout with hlt | hgt
    · apply findBracket_eq_none_of_lt
      intro q hq
      rcases List.mem_cons.mp hq with rfl | hq2
      · exact hlt
      · exact lt_of_lt_of_le hlt (List.rel_of_sorted_cons hsorted q hq2)
    · apply findBracket_eq_none_of_gt
      intro q hq
      exact lt_of_le_of_lt (le_getLast_of_sorted (p :: rest) hsorted (List.cons_ne_nil p rest) q hq) hgt
  unfold lutEntry
  rw [hs]
  simp [hnone]

/-- C3 witness: the concrete points {(100,50),(200,100)} at i = 5 (strictly
before the smallest x) take the default-pair extrapolation path. -/
theorem c3_witness :
    lutEntry [⟨100,50⟩, ⟨200,100⟩] 5 = interpEntry ⟨100,50⟩ ⟨200,100⟩ 5 := by
  have hs : sortByX [⟨100,50⟩, ⟨200,100⟩] = [⟨100,50⟩, ⟨200,100⟩] := by
    norm_num [sortByX, List.insertionSort, List.orderedInsert, ptLE]
  exact c3_amended [⟨100,50⟩, ⟨200,100⟩] ⟨100,50⟩ [⟨200,100⟩] hs 5 (by left; decide)

/-- C3 counterexample: for the point set {(100,50),(200,100)} the claim
predicts lut[0] = 50 (the first point y value); the code extrapolates through
the two points and stores 0 instead. -/
theorem c3_counterexample :
    lutEntry [⟨100,50⟩, ⟨200,100⟩] 0 = 0 ∧ (0 : ℤ) ≠ 50 := by
  constructor
  · norm_num [lutEntry, sortByX, List.insertionSort, List.orderedInsert, ptLE, findBracket,
      interpEntry, clampFloor, List.getLast]
  · decide

/-- C6 counterexample: the set {(0,300),(0,50),(255,255)} contains the
endpoints x = 0 and x = 255, a duplicate x and a y outside [0,255]; at
i = 0 the degenerate branch stores p1.y = 300 through the Uint8Array
conversion, i.e. 300 mod 256 = 44, not the clamped value 255. -/
theorem c6_counterexample :
    lutEntry [⟨0,300⟩, ⟨0,50⟩, ⟨255,255⟩] 0 = 44 ∧ (44 : ℤ) ≠ max 0 (min 255 300) := by
  exact ⟨by decide, by decide⟩

/-- C6 (amended): every stored entry of generateLUT lies in [0, 255] for
every control-point set; in the interpolation branch the entry is the
interpolated value clamped into [0, 255], while in the degenerate
duplicate-x branch the stored value is p1.y reduced modulo 256 (a wrap,
not a clamp), which still lies in [0, 255]. -/
theorem c6_amended (points : List Point) (i : ℕ) :
    0 ≤ lutEntry points i ∧ lutEntry points i ≤ 255 :=
  lutEntry_range points i

/-- Evaluation of clampFloor on an in-range natural number. -/
theorem clampFloor_natCast (i : ℕ) (hi : i ≤ 255) : clampFloor (i : ℚ) = i := by
  unfold clampFloor
  rw [min_eq_right (by exact_mod_cast hi), max_eq_right (Nat.cast_nonneg i)]
  exact Int.floor_natCast i

/-- Evaluation of clampFloor on an in-range integer. -/
theorem clampFloor_intCast (z : ℤ) (h0 : 0 ≤ z) (h255 : z ≤ 255) : clampFloor (z : ℚ) = z := by
  unfold clampFloor
  rw [min_eq_right (by exact_mod_cast h255), max_eq_right (by exact_mod_cast h0)]
  exact Int.floor_intCast z

/-- C7: for the control points {(0,0),(255,255)} generateLUT is the
identity on all 256 inputs, and for {(0,255),(255,0)} it is the exact
inversion lut[i] = 255 - i. -/
theorem c7_lut_identity_inversion :
    generateLUT [⟨0,0⟩, ⟨255,255⟩] = (List.range 256).map (fun n : ℕ => (n : ℤ)) ∧
    generateLUT [⟨0,255⟩, ⟨255,0⟩] = (List.range 256).map (fun n : ℕ => 255 - (n : ℤ)) := by
  constructor
  · unfold generateLUT
    apply List.map_congr_left
    intro i hi
    have hi256 : i < 256 := List.mem_range.mp hi
    have hs : sortByX [⟨0,0⟩, ⟨255,255⟩] = [⟨0,0⟩, ⟨255,255⟩] := by
      norm_num [sortByX, List.insertionSort, List.orderedInsert, ptLE]
    have hb : findBracket (i : ℤ) [⟨0,0⟩, ⟨255,255⟩] = some (⟨0,0⟩, ⟨255,255⟩) := by
      unfold findBracket
      rw [if_pos]
      refine ⟨?_, ?_⟩
      · exact Int.natCast_nonneg i
      · exact (by exact_mod_cast Nat.lt_succ_iff.mp hi256 : (i : ℤ) ≤ 255)
    unfold lutEntry
    rw [hs]
    simp only [hb, Option.getD_some]
    have h : interpEntry ⟨0,0⟩ ⟨255,255⟩ (i : ℤ)
        = clampFloor ((0 : ℚ) + ((i : ℚ) - 0) / (255 - 0) * (255 - 0)) := by
      unfold interpEntry
      norm_num
    rw [h]
    have hv : (0 : ℚ) + ((i : ℚ) - 0) / (255 - 0) * (255 - 0) = (i : ℚ) := by field_simp
    rw [hv, clampFloor_natCast i (Nat.lt_succ_iff.mp hi256)]
  · unfold generateLUT
    apply List.map_congr_left
    intro i hi
    have hi256 : i < 256 := List.mem_range.mp hi
    have hi255 : i ≤ 255 := Nat.lt_succ_iff.mp hi256
    have hs : sortByX [⟨0,255⟩, ⟨255,0⟩] = [⟨0,255⟩, ⟨255,0⟩] := by
      norm_num [sortByX, List.insertionSort, List.orderedInsert, ptLE]
    have hb : findBracket (i : ℤ) [⟨0,255⟩, ⟨255,0⟩] = some (⟨0,255⟩, ⟨255,0⟩) := by
      unfold findBracket
      rw [if_pos]
      refine ⟨?_, ?_⟩
      · exact Int.natCast_nonneg i
      · exact (by exact_mod_cast hi255 : (i : ℤ) ≤ 255)
    unfold lutEntry
    rw [hs]
    simp only [hb, Option.getD_some]
    have h : interpEntry ⟨0,255⟩ ⟨255,0⟩ (i : ℤ)
        = clampFloor ((255 : ℚ) + ((i : ℚ) - 0) / (255 - 0) * (0 - 255)) := by
      unfold interpEntry
      norm_num
    rw [h]
    have hv : (255 : ℚ) + ((i : ℚ) - 0) / (255 - 0) * (0 - 255) = ((255 - (i : ℤ) : ℤ) : ℚ) := by
      push_cast
      field_simp
      ring
    rw [hv, clampFloor_intCast (255 - (i : ℤ))
      (by exact_mod_cast Int.sub_nonneg.mpr (by exact_mod_cast hi255 : (i : ℤ) ≤ 255))
      (by omega)]

/-- Per-pixel behaviour of the tone-mapping loop, for arbitrary tables. -/
theorem mapPixels_getD (lutAll lutR lutG lutB : List ℕ) (j : ℕ) :
    ∀ data : List ℕ, 4 * j + 3 < data.length →
      (mapPixels lutAll lutR lutG lutB data).getD (4 * j) 0
          = lutAll.getD (lutR.getD (data.getD (4 * j) 0) 0) 0 ∧
        (mapPixels lutAll lutR lutG lutB data).getD (4 * j + 1) 0
          = lutAll.getD (lutG.getD (data.getD (4 * j + 1) 0) 0) 0 ∧
        (mapPixels lutAll lutR lutG lutB data).getD (4 * j + 2) 0
          = lutAll.getD (lutB.getD (data.getD (4 * j + 2) 0) 0) 0 ∧
        (mapPixels lutAll lutR lutG lutB data).getD (4 * j + 3) 0
          = data.getD (4 * j + 3) 0 := by
  induction j with
  | zero =>
    intro data hlen
    match data with
    | [] => simp only [List.length_nil] at hlen; omega
    | [r] => simp only [List.length_cons, List.length_nil] at hlen; omega
    | [r, g] => simp only [List.length_cons, List.length_nil] at hlen; omega
    | [r, g, b] => simp only [List.length_cons, List.length_nil] at hlen; omega
    | r :: g :: b :: a :: rest =>
      simp only [mapPixels]
      refine ⟨rfl, rfl, rfl, rfl⟩
  | succ j ih =>
    intro data hlen
    match data with
    | [] => simp only [List.length_nil] at hlen; omega
    | [r] => simp only [List.length_cons, List.length_nil] at hlen; omega
    | [r, g] => simp only [List.length_cons, List.length_nil] at hlen; omega
    | [r, g, b] => simp only [List.length_cons, List.length_nil] at hlen; omega
    | r :: g :: b :: a :: rest =>
      have hr : 4 * j + 3 < rest.length := by
        simp only [List.length_cons] at hlen
        omega
      have hstep : ∀ (x1 x2 x3 x4 : ℕ) (l : List ℕ) (m : ℕ),
          (x1 :: x2 :: x3 :: x4 :: l).getD (4 * (j + 1) + m) (0:ℕ) = l.getD (4 * j + m) 0 := by
        intro x1 x2 x3 x4 l m
        have h4 : 4 * (j + 1) + m = (4 * j + m) + 1 + 1 + 1 + 1 := by ring
        rw [h4]
        rfl
      have hstep0 : ∀ (x1 x2 x3 x4 : ℕ) (l : List ℕ),
          (x1 :: x2 :: x3 :: x4 :: l).getD (4 * (j + 1)) (0:ℕ) = l.getD (4 * j) 0 := by
        intro x1 x2 x3 x4 l
        have h4 : 4 * (j + 1) = (4 * j) + 1 + 1 + 1 + 1 := by ring
        rw [h4]
        rfl
      obtain ⟨ih0, ih1, ih2, ih3⟩ := ih rest hr
      simp only [mapPixels]
      exact ⟨by rw [hstep0, hstep0, ih0], by rw [hstep, hstep, ih1],
        by rw [hstep, hstep, ih2], by rw [hstep, hstep, ih3]⟩

/-- C5: applyCurves passes the red, green and blue channels of each pixel first
through the corresponding channel LUT and then through the master LUT
(output channel = lutAll[lutC[input]]), and leaves every alpha sample
unchanged, for every pixel index j of the flat RGBA data. -/
theorem c5_applyCurves (s : CurveSettings) (data : List ℕ) (j : ℕ)
    (hlen : 4 * j + 3 < data.length) :
    (applyCurvesData s data).getD (4 * j) 0
        = (generateLUTN s.all).getD ((generateLUTN s.red).getD (data.getD (4 * j) 0) 0) 0 ∧
      (applyCurvesData s data).getD (4 * j + 1) 0
        = (generateLUTN s.all).getD ((generateLUTN s.green).getD (data.getD (4 * j + 1) 0) 0) 0 ∧
      (applyCurvesData s data).getD (4 * j + 2) 0
        = (generateLUTN s.all).getD ((generateLUTN s.blue).getD (data.getD (4 * j + 2) 0) 0) 0 ∧
      (applyCurvesData s data).getD (4 * j + 3) 0 = data.getD (4 * j + 3) 0 :=
  mapPixels_getD (generateLUTN s.all) (generateLUTN s.red) (generateLUTN s.green)
    (generateLUTN s.blue) j data hlen

/-- C5 witness: the second pixel (j = 1) of a concrete two-pixel buffer
under concrete curve settings. -/
theorem c5_witness :
    (applyCurvesData ⟨[⟨0,0⟩, ⟨255,255⟩], [⟨0,255⟩, ⟨255,0⟩], [⟨0,0⟩, ⟨255,255⟩], [⟨0,128⟩, ⟨255,128⟩]⟩
        [1, 2, 3, 4, 10, 20, 30, 40]).getD (4 * 1) 0
      = (generateLUTN [⟨0,0⟩, ⟨255,255⟩]).getD
          ((generateLUTN [⟨0,255⟩, ⟨255,0⟩]).getD
            (([1, 2, 3, 4, 10, 20, 30, 40] : List ℕ).getD (4 * 1) 0) 0) 0 ∧
    (applyCurvesData ⟨[⟨0,0⟩, ⟨255,255⟩], [⟨0,255⟩, ⟨255,0⟩], [⟨0,0⟩, ⟨255,255⟩], [⟨0,128⟩, ⟨255,128⟩]⟩
        [1, 2, 3, 4, 10, 20, 30, 40]).getD (4 * 1 + 3) 0
      = ([1, 2, 3, 4, 10, 20, 30, 40] : List ℕ).getD (4 * 1 + 3) 0 := by
  have h := c5_applyCurves
    ⟨[⟨0,0⟩, ⟨255,255⟩], [⟨0,255⟩, ⟨255,0⟩], [⟨0,0⟩, ⟨255,255⟩], [⟨0,128⟩, ⟨255,128⟩]⟩
    [1, 2, 3, 4, 10, 20, 30, 40] 1 (by decide)
  exact ⟨h.1, h.2.2.2⟩

/-- Bridge between the list-level bucket sum and the Finset sum. -/
theorem sum_map_range (f : ℕ → ℕ) (n : ℕ) :
    ((List.range n).map f).sum = ∑ i ∈ Finset.range n, f i := by
  induction n with
  | zero => simp
  | succ k ih =>
    rw [List.range_succ, Finset.sum_range_succ, List.map_append, List.sum_append, ih]
    simp

/-- The rounded luma of a valid 8-bit pixel occupies a bucket index below 256. -/
theorem luma_lt_256 (p : Px) (hv : validPx p) : luma p < 256 := by
  obtain ⟨hr, hg, hb⟩ := hv
  unfold luma
  have : 299 * p.r + 587 * p.g + 114 * p.b + 500 < 256000 := by omega
  omega

/-- Reading bucket l of the un-normalized histogram. -/
theorem histCounts_getD (pixels : List Px) (l : ℕ) (hl : l < 256) :
    (histCounts pixels).getD l 0 = (pixels.filter (fun p => luma p == l)).length := by
  unfold histCounts
  rw [List.getD_eq_getElem?_getD]
  simp [List.getElem?_map, List.getElem?_range hl]

/-- The bucket counts of one more pixel. -/
theorem histCounts_filter_cons (p : Px) (ps : List Px) (l : ℕ) :
    ((p :: ps).filter (fun q => luma q == l)).length
      = (if luma p = l then 1 else 0) + (ps.filter (fun q => luma q == l)).length := by
  rw [List.filter_cons]
  by_cases h : luma p = l
  · simp [h, Nat.add_comm]
  · simp [h]

/-- The buckets of the Finset-sum form sum to the pixel count. -/
theorem sum_buckets :
    ∀ pixels : List Px, (∀ p ∈ pixels, validPx p) →
      (∑ l ∈ Finset.range 256, (pixels.filter (fun q => luma q == l)).length) = pixels.length := by
  intro pixels
  induction pixels with
  | nil => intro _; simp
  | cons p ps ih =>
    intro hv
    have hp : validPx p := hv p (List.mem_cons_self p ps)
    have hps : ∀ q ∈ ps, validPx q := fun q hq => hv q (List.mem_cons_of_mem p hq)
    rw [Finset.sum_congr rfl (fun l _ => histCounts_filter_cons p ps l),
      Finset.sum_add_distrib]
    have h1 : (∑ l ∈ Finset.range 256, (if luma p = l then (1:ℕ) else 0)) = 1 := by
      rw [Finset.sum_ite_eq]
      simp [Finset.mem_range.mpr (luma_lt_256 p hp)]
    rw [h1, ih hps]
    simp [Nat.add_comm]

/-- C8 support: the 256 un-normalized bucket counts sum to the number of
sampled pixels. -/
theorem histCounts_sum (pixels : List Px) (hv : ∀ p ∈ pixels, validPx p) :
    (histCounts pixels).sum = pixels.length := by
  unfold histCounts
  rw [sum_map_range]
  exact sum_buckets pixels hv

/-- Bucket counts of a solid-colour raster. -/
theorem histCounts_replicate (p : Px) (n l : ℕ) (hl : l < 256) :
    (histCounts (List.replicate n p)).getD l 0 = if luma p = l then n else 0 := by
  rw [histCounts_getD _ l hl, List.filter_replicate]
  by_cases h : luma p = l
  · simp [h]
  · simp [h]

theorem le_foldr_max (l : List ℕ) (a : ℕ) (h : a ∈ l) : a ≤ l.foldr max 0 := by
  induction l with
  | nil => cases h
  | cons b t ih =>
    rcases List.mem_cons.mp h with rfl | h2
    · exact le_max_left _ _
    · exact le_trans (ih h2) (le_max_right _ _)

theorem foldr_max_le (l : List ℕ) (m : ℕ) (h : ∀ a ∈ l, a ≤ m) : l.foldr max 0 ≤ m := by
  induction l with
  | nil => exact Nat.zero_le m
  | cons b t ih =>
    exact max_le (h b (List.mem_cons_self b t))
      (ih (fun a ha => h a (List.mem_cons_of_mem b ha)))

/-- Source: `Math.max(...histogram)` for a solid-colour raster is the pixel count. -/
theorem histMax_replicate (p : Px) (n : ℕ) (hv : validPx p) :
    histMax (List.replicate n p) = n := by
  unfold histMax
  apply le_antisymm
  · apply foldr_max_le
    intro a ha
    unfold histCounts at ha
    obtain ⟨l, _, rfl⟩ := List.mem_map.mp ha
    exact le_trans (List.length_filter_le _ _) (le_of_eq (List.length_replicate n p))
  · apply le_foldr_max
    have hL : luma p < 256 := luma_lt_256 p hv
    have hlen : luma p < (histCounts (List.replicate n p)).length := by
      unfold histCounts
      simpa using hL
    have h1 : (histCounts (List.replicate n p))[luma p] = n := by
      have h0 := histCounts_replicate p n (luma p) hL
      rw [List.getD_eq_getElem?_getD, List.getElem?_eq_getElem hlen] at h0
      simpa using h0
    have hmem := List.getElem_mem hlen
    rw [h1] at hmem
    exact hmem

/-- Reading bucket l of the normalized histogram. -/
theorem calculateHistogram_getD (pixels : List Px) (l : ℕ) (hl : l < 256) :
    (calculateHistogram pixels).getD l 0
      = ((histCounts pixels).getD l 0 : ℚ) / (histMax pixels : ℚ) := by
  unfold calculateHistogram
  have hlen : l < (histCounts pixels).length := by
    unfold histCounts
    simpa using hl
  rw [List.getD_eq_getElem?_getD, List.getElem?_map, List.getElem?_eq_getElem hlen,
    List.getD_eq_getElem?_getD, List.getElem?_eq_getElem hlen]
  simp

/-- C8: the 256 un-normalized luminance bucket counts accumulated by
calculateHistogram sum to the number of sampled pixels, and for a
non-empty solid-colour raster of rounded luma L the normalized histogram
is exactly 1 at bucket L and 0 at every other bucket. -/
theorem c8_histogram :
    (∀ pixels : List Px, (∀ p ∈ pixels, validPx p) →
        (histCounts pixels).sum = pixels.length) ∧
    (∀ (p : Px) (n : ℕ), 0 < n → validPx p →
        (calculateHistogram (List.replicate n p)).getD (luma p) 0 = 1 ∧
        ∀ l : ℕ, l < 256 → l ≠ luma p →
          (calculateHistogram (List.replicate n p)).getD l 0 = 0) := by
  constructor
  · exact histCounts_sum
  · intro p n hn hv
    have hL : luma p < 256 := luma_lt_256 p hv
    constructor
    · rw [calculateHistogram_getD _ _ hL, histCounts_replicate p n (luma p) hL,
        histMax_replicate p n hv]
      have hnn : (n : ℚ) ≠ 0 := by exact_mod_cast Nat.pos_iff_ne_zero.mp hn
      simp [div_self hnn]
    · intro l hl hne
      rw [calculateHistogram_getD _ _ hl, histCounts_replicate p n l hl,
        histMax_replicate p n hv]
      rw [if_neg (fun h => hne h.symm)]
      simp

/-- C8 witness: a single-pixel raster sums to 1; a two-pixel solid colour
raster has normalized value 1 at its luma bucket and 0 at bucket 0. -/
theorem c8_witness :
    (histCounts [⟨10, 20, 30, 255⟩]).sum = 1 ∧
    (calculateHistogram (List.replicate 2 ⟨10, 20, 30, 255⟩)).getD (luma ⟨10, 20, 30, 255⟩) 0 = 1 ∧
    (calculateHistogram (List.replicate 2 ⟨10, 20, 30, 255⟩)).getD 0 0 = 0 := by
  refine ⟨?_, ?_, ?_⟩
  · exact c8_histogram.1 [⟨10, 20, 30, 255⟩] (by decide)
  · exact (c8_histogram.2 ⟨10, 20, 30, 255⟩ 2 (by decide) (by decide)).1
  · exact (c8_histogram.2 ⟨10, 20, 30, 255⟩ 2 (by decide) (by decide)).2 0 (by decide) (by decide)

/-- C1 counterexample: with the real Cropper.tsx crop-box constants
(width 980/3, height 420), a 1000x1000 image at zoom 1 in a 1000x1000
container panned to position (600, 0) yields an origin x of -790/3 < 0 in
handleCrop of Cropper.tsx — the claimed clamping to >= 0 does not happen
there; and with the part_003 constants (280 x 360), a 1000x1000 image at
zoom 7/25 in a 500x500 container panned to (-70, 0) yields a clamped
origin x of 250 with width 1000 > naturalWidth - origin = 750 — the size
is clamped to the full natural size, not to the remaining size. -/
theorem c1_counterexample :
    (handleCropMain ⟨1000, 1000, 1, 600, 0, 1000, 1000, 980/3, 420⟩).x < 0 ∧
    (handleCropAlt ⟨1000, 1000, 7/25, -70, 0, 500, 500, 280, 360⟩).w >
      (1000 : ℚ) - (handleCropAlt ⟨1000, 1000, 7/25, -70, 0, 500, 500, 280, 360⟩).x := by
  constructor
  · norm_num [handleCropMain, cropOffsetX, cropOffsetY, cropScale, cropBoxLeft, cropBoxTop,
      imgLeftInContainer, imgTopInContainer, renderedWidth, renderedHeight]
  · norm_num [handleCropAlt, cropOffsetX, cropOffsetY, cropScale, cropBoxLeft, cropBoxTop,
      imgLeftInContainer, imgTopInContainer, renderedWidth, renderedHeight]

/-- C1 (amended): the crop rectangle of the Cropper.tsx handleCrop is the
raw product offset x scale with no clamping at all; the part_003 handleCrop
is the pointwise clamp of that same rectangle, with the origin clamped to
>= 0 and the size clamped to <= the full natural image size (not to the
natural size remaining beyond the clamped origin). -/
theorem c1_amended (P : CropParams) :
    ((handleCropMain P).x = cropOffsetX P * cropScale P ∧
      (handleCropMain P).y = cropOffsetY P * cropScale P ∧
      (handleCropMain P).w = P.cropBoxW * cropScale P ∧
      (handleCropMain P).h = P.cropBoxH * cropScale P) ∧
    handleCropAlt P = ⟨max 0 (handleCropMain P).x, max 0 (handleCropMain P).y,
      min P.naturalW (handleCropMain P).w, min P.naturalH (handleCropMain P).h⟩ ∧
    (0 ≤ (handleCropAlt P).x ∧ 0 ≤ (handleCropAlt P).y ∧
      (handleCropAlt P).w ≤ P.naturalW ∧ (handleCropAlt P).h ≤ P.naturalH) :=
  ⟨⟨rfl, rfl, rfl, rfl⟩, rfl,
    le_max_left 0 _, le_max_left 0 _, min_le_left _ _, min_le_left _ _⟩

/-- C9 counterexample: at zoom -1 the rendered width is negative, yet the
crop-resolution step of Cropper.tsx does not fail — it returns a crop
rectangle; no InvalidGeometry condition exists anywhere on this path. -/
theorem c9_counterexample :
    renderedWidth ⟨100, 100, -1, 0, 0, 500, 500, 980/3, 420⟩ < 0 ∧
    handleCropMainE ⟨100, 100, -1, 0, 0, 500, 500, 980/3, 420⟩ =
      Except.ok (handleCropMain ⟨100, 100, -1, 0, 0, 500, 500, 980/3, 420⟩) := by
  exact ⟨by norm_num [renderedWidth], rfl⟩

/-- C9 (amended): the crop-resolution step performs no geometry
validation: for every input — including zero or negative renderedWidth —
both implementations return a rectangle and never produce an
InvalidGeometry failure (the arithmetic itself is pure). -/
theorem c9_amended (P : CropParams) :
    handleCropMainE P = Except.ok (handleCropMain P) ∧
    handleCropAltE P = Except.ok (handleCropAlt P) :=
  ⟨rfl, rfl⟩

/-- C10: with the crop-box dimensions, container size, natural size, zoom
and pan treated as shared parameters, the two handleCrop implementations
compute the same crop rectangle whenever the unclamped rectangle lies
within the natural image bounds (origin >= 0 on both axes and scaled
crop-box size <= natural size on both axes). -/
theorem c10_handleCrop_equiv (P : CropParams)
    (h1 : 0 ≤ cropOffsetX P * cropScale P) (h2 : 0 ≤ cropOffsetY P * cropScale P)
    (h3 : P.cropBoxW * cropScale P ≤ P.naturalW)
    (h4 : P.cropBoxH * cropScale P ≤ P.naturalH) :
    handleCropAlt P = handleCropMain P := by
  unfold handleCropAlt handleCropMain
  rw [max_eq_right h1, max_eq_right h2, min_eq_right h3, min_eq_right h4]

/-- C10 witness: a concrete in-bounds configuration on which the two
implementations agree. -/
theorem c10_witness :
    handleCropAlt ⟨1000, 1000, 1, 0, 0, 500, 500, 100, 100⟩ =
      handleCropMain ⟨1000, 1000, 1, 0, 0, 500, 500, 100, 100⟩ := by
  apply c10_handleCrop_equiv
  · norm_num [cropOffsetX, cropScale, cropBoxLeft, imgLeftInContainer, renderedWidth]
  · norm_num [cropOffsetY, cropScale, cropBoxTop, imgTopInContainer, renderedWidth, renderedHeight]
  · norm_num [cropScale, renderedWidth]
  · norm_num [cropScale, renderedWidth]

/-- C4 counterexample: a requested crop of 4096 x 100 (width longer than
height and above both policy maxima) is returned at full 4096 width by
both implementations — only the height is capped, so the longer dimension
is not and the output can exceed the maximum. -/
theorem c4_counterexample :
    (getCroppedImgTarget 4096 100).1 = 4096 ∧ (2048 : ℚ) < (getCroppedImgTarget 4096 100).1 ∧
    (getCroppedImgTargetAlt 4096 100).1 = 4096 ∧ (1024 : ℚ) < (getCroppedImgTargetAlt 4096 100).1 := by
  refine ⟨?_, ?_, ?_, ?_⟩ <;>
    norm_num [getCroppedImgTarget, getCroppedImgTargetAlt, croppedTargetSize]

/-- C4 (amended): getCroppedImg caps the requested height (not the longer
dimension) to the policy maximum while scaling width by the same factor:
for every positive maximum and positive requested height the output
height never exceeds the maximum and the output aspect ratio equals the
requested aspect ratio (stated multiplicatively); the width is unbounded. -/
theorem c4_amended (maxH w h : ℚ) (hh : 0 < h) :
    (croppedTargetSize maxH w h).2 ≤ maxH ∧
    (croppedTargetSize maxH w h).1 * h = w * (croppedTargetSize maxH w h).2 := by
  unfold croppedTargetSize
  by_cases hc : h > maxH
  · rw [if_pos hc]
    constructor
    · exact le_refl maxH
    · field_simp
  · rw [if_neg hc]
    exact ⟨le_of_not_lt hc, by ring⟩

/-- C4 witness: the 2048-policy applied to a 35 x 45 request (not capped). -/
theorem c4_witness :
    (croppedTargetSize 2048 35 45).2 ≤ 2048 ∧
    (croppedTargetSize 2048 35 45).1 * 45 = 35 * (croppedTargetSize 2048 35 45).2 :=
  c4_amended 2048 35 45 (by norm_num)

/-- C2: generatePassportSheet draws exactly 8 cells in the 4 x 2 grid; all
cells lie inside the 1800 x 1200 sheet; the cells are pairwise
non-overlapping; and the left margin equals the right margin while the
top margin equals the bottom margin. -/
theorem c2_sheet_layout :
    sheetCells.length = 8 ∧
    List.Forall inSheet sheetCells ∧
    List.Pairwise RectDisjoint sheetCells ∧
    START_X = SHEET_WIDTH - (START_X + TOTAL_CONTENT_WIDTH) ∧
    START_Y = SHEET_HEIGHT - (START_Y + TOTAL_CONTENT_HEIGHT) := by
  refine ⟨rfl, ?_, ?_, ?_, ?_⟩
  · show List.Forall inSheet [sheetCell 0 0, sheetCell 0 1, sheetCell 0 2, sheetCell 0 3,
      sheetCell 1 0, sheetCell 1 1, sheetCell 1 2, sheetCell 1 3]
    simp only [List.forall_cons]
    refine ⟨?_, ?_, ?_, ?_, ?_, ?_, ?_, ?_, trivial⟩ <;>
    norm_num [inSheet, sheetCell, START_X, START_Y, SHEET_WIDTH, SHEET_HEIGHT,
      TOTAL_CONTENT_WIDTH, TOTAL_CONTENT_HEIGHT, PHOTO_WIDTH_PX, PHOTO_HEIGHT_PX, GAP_PX, sheetDPI]
  · show List.Pairwise RectDisjoint [sheetCell 0 0, sheetCell 0 1, sheetCell 0 2, sheetCell 0 3,
      sheetCell 1 0, sheetCell 1 1, sheetCell 1 2, sheetCell 1 3]
    simp only [List.pairwise_cons, List.mem_cons, List.mem_singleton, List.not_mem_nil,
      forall_eq_or_imp, forall_eq, IsEmpty.forall_iff, and_true, List.Pairwise.nil]
    norm_num [RectDisjoint, sheetCell, START_X, START_Y, SHEET_WIDTH, SHEET_HEIGHT,
      TOTAL_CONTENT_WIDTH, TOTAL_CONTENT_HEIGHT, PHOTO_WIDTH_PX, PHOTO_HEIGHT_PX, GAP_PX, sheetDPI]
  · norm_num [START_X, SHEET_WIDTH, TOTAL_CONTENT_WIDTH, PHOTO_WIDTH_PX, GAP_PX, sheetDPI]
  · norm_num [START_Y, SHEET_HEIGHT, TOTAL_CONTENT_HEIGHT, PHOTO_HEIGHT_PX, GAP_PX, sheetDPI]
